import Mathlib

/-!
Shallow embedding of the `lattice_client` repository (src/lattice_sdk/__init__.py):
a Python HTTP client for a document-indexing service, consisting of a dataclass
`LatticeDB` with a shared request primitive `_request` and the operations
`add`, `progress`, `search`, `list`, `clear`.

The HTTP transport (httpx) is an external collaborator: each operation is
modelled as a function of its arguments, the client configuration, and the
`Response` the transport would return; the requests the operation issues are
returned explicitly as a trace, so that "no network call is made" is the
statement that the trace is empty.  Python `dict`s are modelled as ordered
association lists (insertion order, unique keys), JSON values as the
inductive `Json`, and CPython behaviours that the code relies on (truthiness,
`or`, `str`, `float`, `dict.get`, `dict` assignment, `str.rstrip`) as the
corresponding `py*` functions.
-/

/-- JSON values as decoded by `response.json()`.  Python's json module
distinguishes `int` and `float`; floats are modelled as rationals (the exact
decimal produced by `repr` of a CPython float is not modelled; no theorem
below depends on the string form of a float). -/
inductive Json where
  | null : Json
  | bool (b : Bool) : Json
  | int (n : Int) : Json
  | float (q : Rat) : Json
  | str (s : String) : Json
  | arr (xs : List Json) : Json
  | obj (kvs : List (String × Json)) : Json

/-- First-match lookup in an ordered association list: Python `d.get(key)`
(a Python dict has unique keys, so first match is the match). -/
def getEntry {α : Type} : List (String × α) → String → Option α
  | [], _ => none
  | (k, v) :: rest, key => if k = key then some v else getEntry rest key

/-- Python `d[key] = value` on a dict: replaces the value in place if the key
exists, else appends the new entry (insertion order). -/
def setEntry {α : Type} : List (String × α) → String → α → List (String × α)
  | [], key, v => [(key, v)]
  | (k, w) :: rest, key, v =>
      if k = key then (key, v) :: rest else (k, w) :: setEntry rest key v

/-- Python `payload.get(key)` where `payload` is the decoded JSON value:
a lookup when it is a dict, never called on anything else in the source. -/
def Json.get : Json → String → Option Json
  | Json.obj kvs, key => getEntry kvs key
  | _, _ => none

/-- Python `isinstance(payload, dict)`. -/
def Json.isObj : Json → Bool
  | Json.obj _ => true
  | _ => false

/-- CPython truthiness (`bool(x)`) for JSON-decoded values: `None`, `False`,
zero, and empty containers/strings are falsy. -/
def pyTruthy : Json → Bool
  | Json.null => false
  | Json.bool b => b
  | Json.int n => n != 0
  | Json.float q => q != 0
  | Json.str s => s != ""
  | Json.arr xs => !xs.isEmpty
  | Json.obj kvs => !kvs.isEmpty

mutual
/-- CPython `repr` of a JSON-decoded value (`str` and `repr` agree on
everything except strings).  Strings are rendered between single quotes;
the escaping CPython applies to quotes and control characters inside a
string is not modelled (no theorem below evaluates `pyRepr` on such a
string), and a float's repr is rendered from the rational. -/
def pyRepr : Json → String
  | Json.null => "None"
  | Json.bool true => "True"
  | Json.bool false => "False"
  | Json.int n => toString n
  | Json.float q => toString q
  | Json.str s => "'" ++ s ++ "'"
  | Json.arr xs => "[" ++ pyReprArr xs ++ "]"
  | Json.obj kvs => "\x7b" ++ pyReprObj kvs ++ "\x7d"

/-- Comma-separated `repr` of the elements of a Python list. -/
def pyReprArr : List Json → String
  | [] => ""
  | [x] => pyRepr x
  | x :: y :: xs => pyRepr x ++ ", " ++ pyReprArr (y :: xs)

/-- Comma-separated `'key': repr(value)` rendering of the entries of a dict. -/
def pyReprObj : List (String × Json) → String
  | [] => ""
  | [(k, v)] => "'" ++ k ++ "': " ++ pyRepr v
  | (k, v) :: e :: kvs => "'" ++ k ++ "': " ++ pyRepr v ++ ", " ++ pyReprObj (e :: kvs)
end

/-- CPython `str(x)` for a JSON-decoded value: identity on strings, `repr`
otherwise. -/
def pyStr : Json → String
  | Json.str s => s
  | j => pyRepr j

/-- CPython `float(x)` restricted to the values it converts without raising
among those the source can pass it: ints, floats and bools convert; `None`,
lists and dicts raise TypeError (modelled as `none`).  CPython also parses
numeric strings; that case is not modelled (no theorem below evaluates
`pyFloat` on a string, and the source never constructs one for it). -/
def pyFloat : Json → Option Rat
  | Json.int n => some (n : Rat)
  | Json.float q => some q
  | Json.bool b => some (if b then 1 else 0)
  | _ => none

/-- Python `s.rstrip("/")`: drop every trailing slash. -/
def rstripSlash (s : String) : String :=
  String.mk ((s.toList.reverse.dropWhile (fun c => c = '/')).reverse)

/-- The errors the client raises, one constructor per raise site / exception
class of the source: `validation` for the two `ValueError`s in `add`,
`service` for the `RuntimeError(f"{status_code} {message}")` on status >= 400
(status and stringified message carried separately), `protocol` for the two
contract-violation `RuntimeError`s, and `typeError` for an uncaught failure
of the builtin `float`. -/
inductive LatticeError where
  | validation (msg : String) : LatticeError
  | service (status : Nat) (message : String) : LatticeError
  | protocol (msg : String) : LatticeError
  | typeError (msg : String) : LatticeError
deriving DecidableEq

/-- What comes back from the transport for one call: the HTTP status code,
the raw body text, and the result of `response.json()` (`none` when decoding
raises). -/
structure Response where
  status : Nat
  text : String
  json : Option Json

/-- One HTTP request as handed to `client.request(method, url, headers=…,
json=…, params=…)`; recorded so that theorems can speak about what was (or
was not) sent. -/
structure HttpRequest where
  method : String
  url : String
  headers : List (String × String)
  body : Option Json
  params : Option (List (String × Json))

/-- The dataclass `LatticeDB`: the five configuration fields. -/
structure LatticeDB where
  api_key : String
  knowledge_base : String
  base_url : String
  embedding_model : Option String
  timeout : Rat
deriving DecidableEq

/-- Header merging step of `_request`: `headers = kwargs.pop("headers", {});
headers["Authorization"] = f"Bearer {self.api_key}"`. -/
def requestHeaders (caller : List (String × String)) (api_key : String) :
    List (String × String) :=
  setEntry caller "Authorization" ("Bearer " ++ api_key)

/-- Response-handling tail of `_request`: decode the body (`payload =
{"error": response.text}` when `response.json()` raises), raise the
status >= 400 `RuntimeError` with `payload.get("error") if isinstance(payload,
dict) else str(payload)` as the message, reject non-dict payloads, and
otherwise return the payload. -/
def handleResponse (r : Response) : Except LatticeError Json :=
  let payload := match r.json with
    | some j => j
    | none => Json.obj [("error", Json.str r.text)]
  if r.status ≥ 400 then
    let message := match payload with
      | Json.obj kvs => pyStr ((getEntry kvs "error").getD Json.null)
      | p => pyStr p
    Except.error (LatticeError.service r.status message)
  else if payload.isObj then Except.ok payload
  else Except.error (LatticeError.protocol "Unexpected API response format")

/-- The shared request primitive `_request`: builds the authorized headers and
the URL `base_url.rstrip('/') + path`, performs the call (the transport's
answer is the parameter `resp`), and handles the response.  The first
component is the client after the call (the method assigns no attribute, so
it is returned unchanged); the `HttpRequest` component is what was sent. -/
def LatticeDB.request (self : LatticeDB) (method path : String)
    (headers : List (String × String)) (jsonBody : Option Json)
    (params : Option (List (String × Json))) (resp : Response) :
    LatticeDB × HttpRequest × Except LatticeError Json :=
  (self,
   { method := method
     url := rstripSlash self.base_url ++ path
     headers := requestHeaders headers self.api_key
     body := jsonBody
     params := params },
   handleResponse resp)

/-- Entries contributed by `if self.embedding_model: body["embedding_model"] =
self.embedding_model` (truthiness: `None` and the empty string contribute
nothing). -/
def embeddingEntries (self : LatticeDB) : List (String × Json) :=
  match self.embedding_model with
  | some m => if m = "" then [] else [("embedding_model", Json.str m)]
  | none => []

/-- What `add` returns: the job id string in async mode, the full payload in
sync mode. -/
inductive AddResult where
  | job (id : String) : AddResult
  | payload (p : Json) : AddResult

/-- What `progress` returns: the float view or, with `details=True`, the full
payload. -/
inductive ProgressResult where
  | num (q : Rat) : ProgressResult
  | full (p : Json) : ProgressResult

/-- The request body `add` builds, entries in the source's insertion order:
`knowledge_base`, `chunker`, `async` always; `embedding_model` when the
configured model is truthy; `max_chars`, `path`, `origin`, `text`, `source`
when not `None`. -/
def addBody (self : LatticeDB) (chunker : String) (max_chars : Option Int)
    (path origin text source : Option String) (async_mode : Bool) : Json :=
  Json.obj
    ([("knowledge_base", Json.str self.knowledge_base),
      ("chunker", Json.str chunker),
      ("async", Json.bool async_mode)]
     ++ embeddingEntries self
     ++ (match max_chars with
         | some n => [("max_chars", Json.int n)]
         | none => [])
     ++ (match path with
         | some p => [("path", Json.str p)]
         | none => [])
     ++ (match origin with
         | some o => [("origin", Json.str o)]
         | none => [])
     ++ (match text with
         | some t => [("text", Json.str t)]
         | none => [])
     ++ (match source with
         | some s => [("source", Json.str s)]
         | none => []))

/-- The method `add`: the two `ValueError` validations (raised before
`_request` is reached, hence an empty request trace), then the POST to
`/api/rag/add`, then the async job-id extraction `payload.get("id") or
payload.get("job_id")` with its truthiness test `if not job_id`, or the raw
payload in sync mode. -/
def LatticeDB.add (self : LatticeDB) (text source : Option String)
    (chunker : String) (max_chars : Option Int) (path origin : Option String)
    (async_mode : Bool) (resp : Response) :
    LatticeDB × List HttpRequest × Except LatticeError AddResult :=
  if text.isNone && source.isNone then
    (self, [], Except.error
      (LatticeError.validation "Either text or source must be provided"))
  else if text.isSome && source.isSome then
    (self, [], Except.error
      (LatticeError.validation "Provide text or source, not both"))
  else
    let body := addBody self chunker max_chars path origin text source async_mode
    let r := self.request "POST" "/api/rag/add" [] (some body) none resp
    (r.1, [r.2.1], r.2.2.bind fun payload =>
      if async_mode then
        let a := (payload.get "id").getD Json.null
        let job_id := if pyTruthy a then a else (payload.get "job_id").getD Json.null
        if pyTruthy job_id then Except.ok (AddResult.job (pyStr job_id))
        else Except.error
          (LatticeError.protocol "Add job id missing from API response")
      else Except.ok (AddResult.payload payload))

/-- The method `progress`: GET `/api/rag/progress/{job_id}`; the full payload
with `details=True`, else `float(payload.get("progress", 0.0))`. -/
def LatticeDB.progress (self : LatticeDB) (job_id : String) (details : Bool)
    (resp : Response) :
    LatticeDB × List HttpRequest × Except LatticeError ProgressResult :=
  let r := self.request "GET" ("/api/rag/progress/" ++ job_id) [] none none resp
  (r.1, [r.2.1], r.2.2.bind fun payload =>
    if details then Except.ok (ProgressResult.full payload)
    else match pyFloat ((payload.get "progress").getD (Json.float 0)) with
      | some q => Except.ok (ProgressResult.num q)
      | none => Except.error (LatticeError.typeError "float() argument"))

/-- The method `search`: POST `/api/rag/search` with the query body (plus the
embedding model when truthy); returns `payload.get("results", [])`. -/
def LatticeDB.search (self : LatticeDB) (query : String) (strategy : String)
    (k : Int) (resp : Response) :
    LatticeDB × List HttpRequest × Except LatticeError Json :=
  let body := Json.obj
    ([("query", Json.str query),
      ("k", Json.int k),
      ("strategy", Json.str strategy),
      ("knowledge_base", Json.str self.knowledge_base)]
     ++ embeddingEntries self)
  let r := self.request "POST" "/api/rag/search" [] (some body) none resp
  (r.1, [r.2.1], r.2.2.bind fun payload =>
    Except.ok ((payload.get "results").getD (Json.arr [])))

/-- The method `list`: GET `/api/rag/list` with pagination/filter query
parameters (plus the embedding model when truthy); returns the payload. -/
def LatticeDB.list (self : LatticeDB) (page per_page : Int) (resp : Response) :
    LatticeDB × List HttpRequest × Except LatticeError Json :=
  let params :=
    [("page", Json.int page),
     ("per_page", Json.int per_page),
     ("knowledge_base", Json.str self.knowledge_base)]
    ++ embeddingEntries self
  let r := self.request "GET" "/api/rag/list" [] none (some params) resp
  (r.1, [r.2.1], r.2.2)

/-- The method `clear`: POST `/api/rag/remove` with the knowledge base (plus
the embedding model when truthy); returns the payload. -/
def LatticeDB.clear (self : LatticeDB) (resp : Response) :
    LatticeDB × List HttpRequest × Except LatticeError Json :=
  let body := Json.obj
    ([("knowledge_base", Json.str self.knowledge_base)]
     ++ embeddingEntries self)
  let r := self.request "POST" "/api/rag/remove" [] (some body) none resp
  (r.1, [r.2.1], r.2.2)

/-- Job-id selection rule stated by the amended claim C2: the string form of
the first truthy value among the `id` and `job_id` fields; a protocol error
when neither holds a truthy value (a present-but-falsy field counts as
missing). -/
def specJobOutcome (kvs : List (String × Json)) : Except LatticeError AddResult :=
  let a := (getEntry kvs "id").getD Json.null
  let b := (getEntry kvs "job_id").getD Json.null
  if pyTruthy a then Except.ok (AddResult.job (pyStr a))
  else if pyTruthy b then Except.ok (AddResult.job (pyStr b))
  else Except.error (LatticeError.protocol "Add job id missing from API response")

/-- Message rule stated by the amended claim C3: the stringified `error` field
when the payload is an object (the stringified `None` when that field is
absent), and the stringified payload when it is not an object; an
undecodable body stands for the object `{"error": raw text}`. -/
def specServiceMessage (r : Response) : String :=
  match (match r.json with
         | some j => j
         | none => Json.obj [("error", Json.str r.text)]) with
  | Json.obj kvs => pyStr ((getEntry kvs "error").getD Json.null)
  | p => pyStr p

/-- The `progress` field of a payload is numeric or absent (the shapes for
which claim C7 predicts the returned number). -/
def numericProgress (kvs : List (String × Json)) : Bool :=
  match getEntry kvs "progress" with
  | none => true
  | some (Json.int _) => true
  | some (Json.float _) => true
  | some _ => false

/-- The number claim C7 predicts for the default view of `progress`: the
numeric `progress` field, or 0.0 when absent. -/
def specProgressValue (kvs : List (String × Json)) : Rat :=
  match getEntry kvs "progress" with
  | some (Json.int n) => (n : Rat)
  | some (Json.float q) => q
  | _ => 0

/-- A concrete configured client, used by the closed witness and
counterexample theorems. -/
def cfg0 : LatticeDB :=
  { api_key := "key0"
    knowledge_base := "kb0"
    base_url := "http://lattice.local"
    embedding_model := none
    timeout := 30 }

/-- Looking up the key just assigned into a dict finds the assigned value. -/
theorem getEntry_setEntry_self {α : Type} (l : List (String × α)) (key : String)
    (v : α) : getEntry (setEntry l key v) key = some v := by
  induction l with
  | nil => simp [setEntry, getEntry]
  | cons kv rest ih =>
    obtain ⟨k, w⟩ := kv
    by_cases hk : k = key <;> simp [setEntry, getEntry, hk, ih]

/-- Assigning one key into a dict leaves every other key's lookup unchanged. -/
theorem getEntry_setEntry_other {α : Type} (l : List (String × α)) (key k' : String)
    (v : α) (h : k' ≠ key) : getEntry (setEntry l key v) k' = getEntry l k' := by
  induction l with
  | nil => simp [setEntry, getEntry, Ne.symm h]
  | cons kv rest ih =>
    obtain ⟨k, w⟩ := kv
    by_cases hk : k = key
    · subst hk
      simp [setEntry, getEntry, Ne.symm h]
    · simp [setEntry, getEntry, hk, ih]

/-- C1: an add call supplying both `text` and `source`, or neither, fails
with a Validation Error and issues zero network calls (the request trace is
empty, so the shared primitive is never invoked and the check precedes any
network activity). -/
theorem add_validation_no_network (self : LatticeDB) (text source : Option String)
    (chunker : String) (max_chars : Option Int) (path origin : Option String)
    (async_mode : Bool) (resp : Response)
    (h : (text = none ∧ source = none) ∨ (text ≠ none ∧ source ≠ none)) :
    (self.add text source chunker max_chars path origin async_mode resp).2.1 = [] ∧
    ∃ m, (self.add text source chunker max_chars path origin async_mode resp).2.2
      = Except.error (LatticeError.validation m) := by
  cases text <;> cases source <;> simp_all [LatticeDB.add]

/-- Closed instance of C1: with neither `text` nor `source`, no request is
issued and the call fails with the first validation message. -/
theorem add_validation_no_network_witness :
    (cfg0.add none none "punct" none none none true
        ⟨200, "", some (Json.obj [])⟩).2.1 = [] ∧
    (cfg0.add none none "punct" none none none true
        ⟨200, "", some (Json.obj [])⟩).2.2
      = Except.error (LatticeError.validation "Either text or source must be provided") := by
  refine ⟨(add_validation_no_network cfg0 none none "punct" none none none true
    ⟨200, "", some (Json.obj [])⟩ (Or.inl ⟨rfl, rfl⟩)).1, rfl⟩

/-- C5: a success-status response whose body decodes to a non-object JSON
value makes the shared primitive raise the Protocol Error instead of
returning the payload. -/
theorem non_object_payload_protocol_error (r : Response) (j : Json)
    (hs : r.status < 400) (hj : r.json = some j) (hobj : j.isObj = false) :
    handleResponse r
      = Except.error (LatticeError.protocol "Unexpected API response format") := by
  unfold handleResponse
  simp [hj, Nat.not_le.mpr hs, hobj]

/-- Closed instance of C5: a status-200 response whose body is the array
[1, 2, 3] raises the Protocol Error. -/
theorem non_object_payload_protocol_error_witness :
    handleResponse ⟨200, "[1, 2, 3]", some (Json.arr [Json.int 1, Json.int 2, Json.int 3])⟩
      = Except.error (LatticeError.protocol "Unexpected API response format") :=
  non_object_payload_protocol_error _ (Json.arr [Json.int 1, Json.int 2, Json.int 3])
    (by decide) rfl rfl

/-- C6: on a success object payload, `search` returns the `results` field,
defaulting to the empty sequence when it is absent — it returns `ok`, never
an error, whatever the object holds. -/
theorem search_results_default (self : LatticeDB) (query strategy : String)
    (k : Int) (resp : Response) (kvs : List (String × Json))
    (hs : resp.status < 400) (hj : resp.json = some (Json.obj kvs)) :
    (self.search query strategy k resp).2.2
      = Except.ok (((Json.obj kvs).get "results").getD (Json.arr [])) := by
  unfold LatticeDB.search LatticeDB.request handleResponse
  simp [hj, Nat.not_le.mpr hs, Json.isObj, Except.bind]

/-- Closed instance of C6: a success payload with no `results` field makes
`search` return the empty sequence. -/
theorem search_results_default_witness :
    (cfg0.search "q" "auto" 5 ⟨200, "", some (Json.obj [("status", Json.str "ok")])⟩).2.2
      = Except.ok (Json.arr []) :=
  search_results_default cfg0 "q" "auto" 5
    ⟨200, "", some (Json.obj [("status", Json.str "ok")])⟩
    [("status", Json.str "ok")] (by decide) rfl

/-- C8: every request issued by the shared primitive carries the header
`Authorization: Bearer <api_key>` — a caller-supplied Authorization entry is
overridden, and every other caller-supplied header is preserved. -/
theorem request_authorization_header (self : LatticeDB) (method path : String)
    (caller : List (String × String)) (jsonBody : Option Json)
    (params : Option (List (String × Json))) (resp : Response) :
    getEntry ((self.request method path caller jsonBody params resp).2.1).headers
      "Authorization" = some ("Bearer " ++ self.api_key) ∧
    ∀ k, k ≠ "Authorization" →
      getEntry ((self.request method path caller jsonBody params resp).2.1).headers k
        = getEntry caller k := by
  constructor
  · exact getEntry_setEntry_self caller "Authorization" _
  · intro k hk
    exact getEntry_setEntry_other caller "Authorization" k _ hk

/-- Closed instance of C8: with caller headers that even try to set
Authorization, the issued request carries the bearer key and keeps the other
caller header. -/
theorem request_authorization_header_witness :
    getEntry ((cfg0.request "GET" "/x" [("Authorization", "hacked"), ("X-Trace", "1")]
        none none ⟨200, "", some (Json.obj [])⟩).2.1).headers "Authorization"
      = some ("Bearer " ++ cfg0.api_key) ∧
    getEntry ((cfg0.request "GET" "/x" [("Authorization", "hacked"), ("X-Trace", "1")]
        none none ⟨200, "", some (Json.obj [])⟩).2.1).headers "X-Trace"
      = getEntry [("Authorization", "hacked"), ("X-Trace", "1")] "X-Trace" :=
  ⟨(request_authorization_header cfg0 "GET" "/x"
      [("Authorization", "hacked"), ("X-Trace", "1")] none none
      ⟨200, "", some (Json.obj [])⟩).1,
   (request_authorization_header cfg0 "GET" "/x"
      [("Authorization", "hacked"), ("X-Trace", "1")] none none
      ⟨200, "", some (Json.obj [])⟩).2 "X-Trace" (by decide)⟩

/-- C9: every operation returns the client with its five configuration
fields unchanged — there is no mutable cross-call state, so each call's
result is a function of its arguments, the configuration and the response
alone. -/
theorem operations_preserve_client (self : LatticeDB) (text source : Option String)
    (chunker : String) (max_chars : Option Int) (path origin : Option String)
    (async_mode : Bool) (job_id : String) (details : Bool)
    (query strategy : String) (k page per_page : Int)
    (r1 r2 r3 r4 r5 : Response) :
    (self.add text source chunker max_chars path origin async_mode r1).1 = self ∧
    (self.progress job_id details r2).1 = self ∧
    (self.search query strategy k r3).1 = self ∧
    (self.list page per_page r4).1 = self ∧
    (self.clear r5).1 = self := by
  refine ⟨?_, rfl, rfl, rfl, rfl⟩
  unfold LatticeDB.add
  split
  · rfl
  · split
    · rfl
    · rfl

/-- Counterexample to C2 as stated: the payload `{"id": ""}` has an `id`
field (so the claim predicts the returned identifier is that value and no
Protocol Error), yet the code treats the falsy value as missing and raises
the Protocol Error. -/
theorem add_job_id_claim_counterexample :
    (cfg0.add (some "doc") none "punct" none none none true
        ⟨200, "", some (Json.obj [("id", Json.str "")])⟩).2.2
      = Except.error (LatticeError.protocol "Add job id missing from API response") ∧
    (Json.obj [("id", Json.str "")]).get "id" = some (Json.str "") :=
  ⟨rfl, rfl⟩

/-- Amended C2: on a success object payload, async add returns the string
form of the first truthy value among the `id` and `job_id` fields, and
raises the Protocol Error when neither field holds a truthy value. -/
theorem add_async_job_selection (self : LatticeDB) (t chunker : String)
    (max_chars : Option Int) (path origin : Option String) (resp : Response)
    (kvs : List (String × Json)) (hs : resp.status < 400)
    (hj : resp.json = some (Json.obj kvs)) :
    (self.add (some t) none chunker max_chars path origin true resp).2.2
      = specJobOutcome kvs := by
  unfold LatticeDB.add LatticeDB.request handleResponse specJobOutcome
  simp [hj, Nat.not_le.mpr hs, Json.isObj, Json.get, Except.bind]
  by_cases ha : pyTruthy ((getEntry kvs "id").getD Json.null) = true <;>
    by_cases hb : pyTruthy ((getEntry kvs "job_id").getD Json.null) = true <;>
      simp [ha, hb]

/-- Closed instance of amended C2: a payload holding only `job_id` yields
that identifier. -/
theorem add_async_job_selection_witness :
    (cfg0.add (some "doc") none "punct" none none none true
        ⟨200, "", some (Json.obj [("job_id", Json.str "j7")])⟩).2.2
      = Except.ok (AddResult.job "j7") :=
  add_async_job_selection cfg0 "doc" "punct" none none none
    ⟨200, "", some (Json.obj [("job_id", Json.str "j7")])⟩
    [("job_id", Json.str "j7")] (by decide) rfl

/-- Counterexample to C3 as stated: a status-404 response whose object
payload has no `error` field — the claim predicts the stringified payload as
the message, but the code stringifies `payload.get("error")`, i.e. `None`. -/
theorem service_error_message_counterexample :
    handleResponse ⟨404, "", some (Json.obj [("detail", Json.str "x")])⟩
      = Except.error (LatticeError.service 404 "None") ∧
    pyStr (Json.obj [("detail", Json.str "x")]) ≠ "None" :=
  ⟨rfl, by decide⟩

/-- Amended C3: a response with status >= 400 fails with a Service Error
carrying the status code and a message that is the stringified `error` field
when the payload is an object (the stringified `None` when the field is
absent) and the stringified payload when it is not an object. -/
theorem service_error_status_message (r : Response) (h : 400 ≤ r.status) :
    handleResponse r
      = Except.error (LatticeError.service r.status (specServiceMessage r)) := by
  unfold handleResponse specServiceMessage
  simp [h]

/-- Closed instance of amended C3: status 404 with body `{"error": "not
found"}` raises the Service Error with code 404 and message exactly
"not found". -/
theorem service_error_status_message_witness :
    handleResponse ⟨404, "", some (Json.obj [("error", Json.str "not found")])⟩
      = Except.error (LatticeError.service 404 "not found") :=
  service_error_status_message
    ⟨404, "", some (Json.obj [("error", Json.str "not found")])⟩ (by decide)

/-- C4: the add request body always contains `knowledge_base`, `chunker` and
`async`; it contains `embedding_model` only when the configured model is
supplied (and truthy), and `max_chars`/`path`/`origin` exactly when supplied
— an unset option is entirely absent, never null; and the issued add request
carries exactly this body. -/
theorem add_body_fields (self : LatticeDB) (t chunker : String)
    (max_chars : Option Int) (path origin : Option String)
    (text source : Option String) (async_mode : Bool) (resp : Response) :
    ((addBody self chunker max_chars path origin text source async_mode).get
        "knowledge_base" = some (Json.str self.knowledge_base)
     ∧ (addBody self chunker max_chars path origin text source async_mode).get
        "chunker" = some (Json.str chunker)
     ∧ (addBody self chunker max_chars path origin text source async_mode).get
        "async" = some (Json.bool async_mode)
     ∧ (addBody self chunker max_chars path origin text source async_mode).get
        "embedding_model"
        = (match self.embedding_model with
           | some m => if m = "" then none else some (Json.str m)
           | none => none)
     ∧ (addBody self chunker max_chars path origin text source async_mode).get
        "max_chars" = max_chars.map Json.int
     ∧ (addBody self chunker max_chars path origin text source async_mode).get
        "path" = path.map Json.str
     ∧ (addBody self chunker max_chars path origin text source async_mode).get
        "origin" = origin.map Json.str)
    ∧ ((self.add (some t) none chunker max_chars path origin async_mode resp).2.1).map
        (fun rq => rq.body)
      = [some (addBody self chunker max_chars path origin (some t) none async_mode)] := by
  constructor
  · obtain ⟨ak, kb, bu, em, tmo⟩ := self
    rcases em with _ | m
    · cases max_chars <;> cases path <;> cases origin <;> cases text <;> cases source <;>
        simp +decide [addBody, embeddingEntries, Json.get, getEntry]
    · by_cases hm : m = "" <;>
        cases max_chars <;> cases path <;> cases origin <;> cases text <;> cases source <;>
        simp +decide [addBody, embeddingEntries, Json.get, getEntry, hm]
  · rfl

/-- C7: on a success object payload whose `progress` field is numeric or
absent, `progress` with `details=true` returns the full payload unchanged,
and without details returns the numeric field, or 0.0 when it is absent. -/
theorem progress_value_or_details (self : LatticeDB) (job_id : String)
    (resp : Response) (kvs : List (String × Json))
    (hs : resp.status < 400) (hj : resp.json = some (Json.obj kvs))
    (hnum : numericProgress kvs = true) :
    (self.progress job_id true resp).2.2
      = Except.ok (ProgressResult.full (Json.obj kvs)) ∧
    (self.progress job_id false resp).2.2
      = Except.ok (ProgressResult.num (specProgressValue kvs)) := by
  unfold LatticeDB.progress LatticeDB.request handleResponse
  unfold numericProgress at hnum
  unfold specProgressValue
  constructor
  · simp [hj, Nat.not_le.mpr hs, Json.isObj, Except.bind]
  · simp [hj, Nat.not_le.mpr hs, Json.isObj, Except.bind, Json.get]
    rcases hg : getEntry kvs "progress" with _ | v
    · simp [hg, pyFloat]
    · rcases v <;> simp_all [pyFloat]

/-- Closed instance of C7: a payload with `progress: 1/2` yields the number
1/2 in the default view. -/
theorem progress_value_or_details_witness :
    (cfg0.progress "j" false
        ⟨200, "", some (Json.obj [("progress", Json.float (1/2))])⟩).2.2
      = Except.ok (ProgressResult.num (1/2)) :=
  (progress_value_or_details cfg0 "j"
    ⟨200, "", some (Json.obj [("progress", Json.float (1/2))])⟩
    [("progress", Json.float (1/2))] (by decide) rfl (by decide)).2

/-- C10: a success-status response whose body is not valid JSON is not an
error — the payload becomes `{"error": raw text}`, so sync add, `list`,
`clear` and detailed `progress` return that object, default `progress`
returns 0.0, and `search` returns the empty sequence. -/
theorem undecodable_body_success_behavior (self : LatticeDB)
    (t chunker : String) (max_chars : Option Int) (path origin : Option String)
    (job_id query strategy : String) (k page per_page : Int) (resp : Response)
    (hs : resp.status < 400) (hj : resp.json = none) :
    (self.add (some t) none chunker max_chars path origin false resp).2.2
      = Except.ok (AddResult.payload (Json.obj [("error", Json.str resp.text)])) ∧
    (self.progress job_id true resp).2.2
      = Except.ok (ProgressResult.full (Json.obj [("error", Json.str resp.text)])) ∧
    (self.progress job_id false resp).2.2
      = Except.ok (ProgressResult.num 0) ∧
    (self.search query strategy k resp).2.2 = Except.ok (Json.arr []) ∧
    (self.list page per_page resp).2.2
      = Except.ok (Json.obj [("error", Json.str resp.text)]) ∧
    (self.clear resp).2.2
      = Except.ok (Json.obj [("error", Json.str resp.text)]) := by
  unfold LatticeDB.add LatticeDB.progress LatticeDB.search LatticeDB.list
    LatticeDB.clear LatticeDB.request handleResponse
  simp +decide [hj, Nat.not_le.mpr hs, Json.isObj, Except.bind, Json.get,
    getEntry, pyFloat]

/-- Closed instance of C10: a status-200 response with the undecodable body
"oops" — search returns the empty sequence, default progress returns 0.0,
and clear returns the object holding the raw text. -/
theorem undecodable_body_success_behavior_witness :
    (cfg0.search "q" "auto" 5 ⟨200, "oops", none⟩).2.2 = Except.ok (Json.arr []) ∧
    (cfg0.progress "j" false ⟨200, "oops", none⟩).2.2
      = Except.ok (ProgressResult.num 0) ∧
    (cfg0.clear ⟨200, "oops", none⟩).2.2
      = Except.ok (Json.obj [("error", Json.str "oops")]) := by
  have h := undecodable_body_success_behavior cfg0 "t" "punct" none none none
    "j" "q" "auto" 5 1 50 ⟨200, "oops", none⟩ (by decide) rfl
  exact ⟨h.2.2.2.1, h.2.2.1, h.2.2.2.2.2⟩
